import Mathlib

/-
  Verification of the knowledge-engine dashboard front end.

  Shallow embedding of the graph visualization and coordination layer:
  - KnowledgeGraph (src/unnamed/part_000, second class copy, lines 205-438;
    the first copy, lines 1-204, is the legacy version and is embedded only
    for its legacy getNodeRadius),
  - Sidebar (src/dashboard/static/js/sidebar.js),
  - InsightViewer (src/dashboard/static/js/viewer.js).

  JS numbers that only ever hold small exact values are modelled as Rat or
  Nat; DOM attribute writes are modelled as fields of explicit state
  records; asynchronous fetch completions are modelled as explicit events
  fed to a step function.
-/

/-! ## Graph data model

Shapes follow the payload of the graph endpoint consumed by render:
nodes carry id, label, theme, novelty_score, color and no coordinates;
edges carry source, target, display, type. -/

structure SnapNode where
  id : String
  label : String
  theme : String
  novelty_score : Rat
  color : Option String
deriving DecidableEq, Repr

structure SnapEdge where
  source : String
  target : String
  display : String
  type : String
deriving DecidableEq, Repr

structure GraphSnapshot where
  nodes : List SnapNode
  edges : List SnapEdge
  orphans : List String
deriving DecidableEq, Repr

/-- A member of this.links after the edge mapping in render. -/
structure LinkRec where
  source : String
  target : String
  display : String
  type : String
deriving DecidableEq, Repr

/-- A member of this.nodes: the per-render clone of a snapshot node,
with the mutable simulation position (x, y) (none while the engine has
not assigned one) and the derived connections count. -/
structure SimNode where
  id : String
  label : String
  theme : String
  novelty_score : Rat
  color : Option String
  pos : Option (Rat × Rat)
  connections : Nat
deriving DecidableEq, Repr

/-- The spread clone in render, line 247 of part_000:
this.nodes = graphData.nodes.map(d => (\x7b ...d \x7d)).
A snapshot node carries no x or y field, so the clone is unpositioned;
connections is written by the counting loop right after (modelled in
render below), so it starts at 0 here. -/
def cloneNode (d : SnapNode) : SimNode :=
  { id := d.id, label := d.label, theme := d.theme
  , novelty_score := d.novelty_score, color := d.color
  , pos := none, connections := 0 }

/-- Value at key k of the connectionCount map built in render, lines
255-263 of part_000: every node id is initialised to 0, then each link
increments the entry of its source and the entry of its target.  For a
key that was initialised, the final value is the total number of
endpoint occurrences of the key across the links, which is what this
recursion computes. -/
def tallyConnections : List LinkRec → String → Nat
  | [], _ => 0
  | l :: ls, k =>
      (if l.source = k then 1 else 0) + (if l.target = k then 1 else 0)
        + tallyConnections ls k

/-- Count written by the claim wording of C4: the number of edges in the
snapshot that have the given id as source or as target.  This definition
follows the words of the specification, for comparison with the
tallyConnections value the code computes. -/
def specIncidentEdgeCount (links : List LinkRec) (k : String) : Nat :=
  (links.filter (fun l => l.source = k || l.target = k)).length

/-- Engine state slice touched by the claims: viewport size, the working
node and link sets, the centering force target, the active theme filter
and whether a simulation object exists. -/
structure KGState where
  width : Int
  height : Int
  nodes : List SimNode
  links : List LinkRec
  centerForce : Rat × Rat
  currentTheme : Option String
  hasSimulation : Bool
deriving DecidableEq, Repr

/-- render(graphData), lines 245-286 of part_000: clones the snapshot
nodes (discarding the previous working set), maps the edges, computes
connections for every node, and rebuilds the simulation with
forceCenter(width / 2, height / 2). -/
def render (st : KGState) (g : GraphSnapshot) : KGState :=
  let links := g.edges.map (fun e =>
    { source := e.source, target := e.target,
      display := e.display, type := e.type : LinkRec })
  let nodes := (g.nodes.map cloneNode).map (fun n =>
    { n with connections := tallyConnections links n.id })
  { st with
    nodes := nodes, links := links,
    centerForce := ((st.width : Rat) / 2, (st.height : Rat) / 2),
    hasSimulation := true }

/-! ## Radius encoding -/

/-- baseRadius in getNodeRadius, line 358 of part_000. -/
def baseRadius : Rat := 6

/-- maxRadius in getNodeRadius, line 359 of part_000. -/
def maxRadius : Rat := 25

/-- getNodeRadius(node), lines 354-362 of part_000 (second copy):
baseRadius + Math.min(connections, 15) * (maxRadius - baseRadius) / 15.
The JS guard (node.connections || 0) reads the connections field written
in render; connections is a Nat here so the fallback is the identity. -/
def getNodeRadius (n : SimNode) : Rat :=
  baseRadius + min (n.connections : Rat) 15 * (maxRadius - baseRadius) / 15

/-- (node.novelty_score || 0.5): a JS number is falsy when it is 0, so
the fallback also replaces an explicit 0 score. -/
def jsOrHalf (x : Rat) : Rat :=
  if x = 0 then 1/2 else x

/-- Legacy getNodeRadius, lines 132-135 of part_000 (first class copy):
keyed on novelty_score only.  Embedded to document the selectable legacy
policy next to the current connections-keyed one. -/
def getNodeRadiusLegacy (novelty_score : Rat) : Rat :=
  let score := max (1/2) (min 1 (jsOrHalf novelty_score))
  5 + (score - 1/2) * 20

/-! ## Node circle styling -/

/-- Style attributes of a node circle that renderNodes and
highlightSearchResults write. -/
structure CircleStyle where
  strokeWidth : Rat
  stroke : String
  dasharray : String
  radius : Rat
  opacity : Rat
  filterAttr : Option String
deriving DecidableEq, Repr

/-- Baseline circle attributes set in renderNodes, lines 298-303 of
part_000: orphans (connections === 0) get a grey dashed stroke and
reduced opacity; no filter attribute is set. -/
def renderNodeStyle (n : SimNode) : CircleStyle :=
  { strokeWidth := 2
  , stroke := if n.connections = 0 then "#cbd5e1" else "#ffffff"
  , dasharray := if n.connections = 0 then "4,4" else "0"
  , radius := getNodeRadius n
  , opacity := if n.connections = 0 then 6/10 else 1
  , filterAttr := none }

/-- The reset pass of highlightSearchResults, lines 397-401 of part_000:
applied to every node circle.  The dasharray and filter attributes are
not touched by this pass. -/
def resetCircleStyle (n : SimNode) (prev : CircleStyle) : CircleStyle :=
  { prev with
    strokeWidth := 2, stroke := "#ffffff",
    radius := getNodeRadius n, opacity := 7/10 }

/-- The emphasis pass of highlightSearchResults, lines 408-413 of
part_000: applied to the circle of each node whose id is in the searched
id list. -/
def searchHighlightStyle (n : SimNode) (prev : CircleStyle) : CircleStyle :=
  { prev with
    strokeWidth := 20, stroke := "#ffd700",
    radius := getNodeRadius n + 6, opacity := 1,
    filterAttr := some "brightness(1.2)" }

/-- highlightSearchResults(nodeIds), lines 393-416 of part_000, as the
resulting style of one node circle: every circle is first reset, then
the loop over nodeIds selects the element with DOM id node-(id) and
emphasises it.  Node DOM ids are unique per node id, so per circle this
is a membership test. -/
def highlightSearchResults (nodeIds : List String) (n : SimNode)
    (prev : CircleStyle) : CircleStyle :=
  let r := resetCircleStyle n prev
  if n.id ∈ nodeIds then searchHighlightStyle n r else r

/-! ## Theme filter -/

/-- this.currentTheme = null in the constructor, line 219 of part_000. -/
def initialCurrentTheme : Option String := none

/-- filterByTheme(theme), lines 374-377 of part_000. -/
def filterByTheme (st : KGState) (theme : String) : KGState :=
  { st with currentTheme := some theme }

/-- clearFilter(), lines 379-382 of part_000. -/
def clearFilter (st : KGState) : KGState :=
  { st with currentTheme := none }

/-- The dimmed class of a node or label computed in updateHighlight,
lines 385-386 of part_000: currentTheme && d.theme !== currentTheme.
A JS string is truthy exactly when it is nonempty, so a null filter and
an empty-string filter both yield false. -/
def nodeDimmed (currentTheme : Option String) (nodeTheme : String) : Bool :=
  match currentTheme with
  | none => false
  | some t => decide (t ≠ "") && decide (nodeTheme ≠ t)

/-- The dimmed class of a link computed in updateHighlight, lines
387-390 of part_000: when the filter is truthy, both endpoint themes
must differ from it. -/
def edgeDimmed (currentTheme : Option String)
    (sourceTheme targetTheme : String) : Bool :=
  match currentTheme with
  | none => false
  | some t => decide (t ≠ "") && (decide (sourceTheme ≠ t) && decide (targetTheme ≠ t))

/-! ## Resize handling -/

/-- onWindowResize(), lines 422-433 of part_000.  Returns the new state
and whether the simulation was restarted (alpha raised to 0.3 and
restart called).  The centering force is recentered only inside the
dimension-change branch and only when a simulation exists. -/
def onWindowResize (st : KGState) (newWidth newHeight : Int) :
    KGState × Bool :=
  if newWidth ≠ st.width || newHeight ≠ st.height then
    let st1 := { st with width := newWidth, height := newHeight }
    if st.hasSimulation then
      ({ st1 with centerForce := ((newWidth : Rat) / 2, (newHeight : Rat) / 2) }, true)
    else (st1, false)
  else (st, false)

/-! ## Sidebar search machine

src/dashboard/static/js/sidebar.js.  The debounced input handler
(lines 38-52), the timer firing performSearch (lines 164-184) and the
fetch completion handler (lines 176-180) interleave on the event loop;
they are modelled as explicit events consumed by a step function.  A
network search call and the two forms of the onSearch callback are the
observable calls a step emits. -/

/-- Sidebar state slice driving search: the current input text, whether
a debounce timeout is pending, the last applied result ids, the selected
theme and the semantic toggle. -/
structure SbSearchState where
  searchQuery : String
  pendingTimer : Bool
  searchResults : List String
  selectedTheme : Option String
  semanticChecked : Bool
deriving DecidableEq, Repr

/-- Observable calls made by the sidebar search code paths. -/
inductive SbCall where
  /-- fetch(/api/vault/search?...) with the query, theme and mode
  parameters read at call time (performSearch lines 170-175). -/
  | fetchSearch (q : String) (theme : Option String) (semantic : Bool)
  /-- onSearch(null): no active search, show the full graph. -/
  | onSearchNull
  /-- onSearch(resultIds) after a response is applied (line 179). -/
  | onSearchIds (ids : List String)
deriving DecidableEq, Repr

/-- Events that drive the sidebar search machine. -/
inductive SbEvent where
  /-- One input event with the new full text of the search box. -/
  | keystroke (q : String)
  /-- The 300 ms debounce timeout fires (if one is still pending). -/
  | timerFire
  /-- The fetch issued for the requestOrdinal-th search call completes
  and its then-continuation runs (performSearch lines 176-180) with the
  listed result ids.  The handler has no access to any generation
  number: requestOrdinal only documents which request the response
  belongs to. -/
  | respond (requestOrdinal : Nat) (resultIds : List String)
deriving DecidableEq, Repr

/-- performSearch(), sidebar.js lines 164-184, up to issuing the fetch:
an empty query reports onSearch(null); otherwise one network search call
carrying the current query, theme and semantic flag is issued.  The
continuation that applies the response is the respond event. -/
def performSearch (st : SbSearchState) : SbSearchState × List SbCall :=
  if st.searchQuery = "" then (st, [SbCall.onSearchNull])
  else (st, [SbCall.fetchSearch st.searchQuery st.selectedTheme st.semanticChecked])

/-- One step of the sidebar search machine.
keystroke: input listener, sidebar.js lines 38-52 - stores the query,
clearTimeout cancels any pending debounce, then either a new 300 ms
timeout is armed (nonempty query) or onSearch(null) fires (empty).
timerFire: the armed timeout runs performSearch.
respond: the fetch continuation - this.searchResults = data.results and
onSearch(resultIds), applied unconditionally, with no staleness check
against later requests. -/
def stepSidebar (st : SbSearchState) : SbEvent → SbSearchState × List SbCall
  | SbEvent.keystroke q =>
      let st1 := { st with searchQuery := q, pendingTimer := false }
      if q = "" then (st1, [SbCall.onSearchNull])
      else ({ st1 with pendingTimer := true }, [])
  | SbEvent.timerFire =>
      if st.pendingTimer then performSearch { st with pendingTimer := false }
      else (st, [])
  | SbEvent.respond _ resultIds =>
      ({ st with searchResults := resultIds }, [SbCall.onSearchIds resultIds])

/-- Runs a list of sidebar events, accumulating the emitted calls in
order. -/
def runSidebar (st : SbSearchState) : List SbEvent → SbSearchState × List SbCall
  | [] => (st, [])
  | e :: es =>
      let r1 := stepSidebar st e
      let r2 := runSidebar r1.1 es
      (r2.1, r1.2 ++ r2.2)

/-- Sidebar constructor state, sidebar.js lines 18-22: empty query, no
timer, no results, no theme; the semantic toggle starts unchecked. -/
def initSidebarSearch : SbSearchState :=
  { searchQuery := "", pendingTimer := false, searchResults := [],
    selectedTheme := none, semanticChecked := false }

/-! ## Sidebar theme selection -/

/-- Sidebar state slice touched by selectTheme. -/
structure SidebarUiState where
  selectedTheme : Option String
  searchInputValue : String
  searchQuery : String
  clearBtnActive : Bool
  resultsVisible : Bool
deriving DecidableEq, Repr

/-- Callbacks the sidebar can invoke, each carrying the sidebar state at
the moment the callback fires. -/
inductive SidebarCallback where
  | themeClick (theme : Option String) (atState : SidebarUiState)
  | searchChanged (ids : Option (List String)) (atState : SidebarUiState)
deriving DecidableEq, Repr

/-- hideSearchResults(), sidebar.js lines 225-228. -/
def hideSearchResultsUi (st : SidebarUiState) : SidebarUiState :=
  { st with resultsVisible := false }

/-- selectTheme(themeName), sidebar.js lines 147-162, in statement
order: store the selection, blank the input box and the stored query,
deactivate the clear button, hide the results panel, update the active
theme-item classes (pure DOM, outside this state slice), and finally
invoke onThemeClick with the theme name.  onSearch is never invoked. -/
def selectTheme (st : SidebarUiState) (themeName : Option String) :
    SidebarUiState × List SidebarCallback :=
  let st1 := { st with selectedTheme := themeName }
  let st2 := { st1 with searchInputValue := "" }
  let st3 := { st2 with searchQuery := "" }
  let st4 := { st3 with clearBtnActive := false }
  let st5 := hideSearchResultsUi st4
  (st5, [SidebarCallback.themeClick themeName st5])

/-! ## Insight viewer

src/dashboard/static/js/viewer.js.  loadInsight wraps the fetch, the
ok-check and render in try/catch; the catch branch calls showError and
nothing propagates past it.  The fetch outcome is passed in as an
Except value; loadInsight is a total function into ViewerState, which is
the no-throw boundary of the claim. -/

structure Insight where
  id : String
  source_title : String
  theme : String
  novelty_score : Rat
  date_added : String
  source_url : Option String
  concepts : List String
  tags : List String
  content : Option String
  html_content : Option String
  filename : String
deriving DecidableEq, Repr

/-- Viewer state slice: the cached insight, the text and visibility of
the empty/placeholder element, the visibility of the detail element and
the rendered title. -/
structure ViewerState where
  currentInsight : Option Insight
  emptyText : String
  emptyShown : Bool
  detailShown : Bool
  titleText : String
deriving DecidableEq, Repr

/-- showError(message), viewer.js lines 162-166: the message replaces
the placeholder text, the placeholder is shown and the detail pane is
hidden. -/
def showError (st : ViewerState) (message : String) : ViewerState :=
  { st with emptyText := message, emptyShown := true, detailShown := false }

/-- render(insight), viewer.js lines 56-115, projected to the tracked
fields: the title falls back from source_title to id (JS ||, falsy on
the empty string), the placeholder is hidden and the detail pane is
shown. -/
def renderInsight (st : ViewerState) (insight : Insight) : ViewerState :=
  { st with
    titleText := if insight.source_title = "" then insight.id else insight.source_title,
    emptyShown := false, detailShown := true }

/-- loadInsight(insightId), viewer.js lines 43-54, given the outcome of
the fetch: a non-ok response throws and any throw from the try block is
caught, logged and turned into showError("Failed to load insight"); a
successful response stores the insight and renders it. -/
def loadInsight (st : ViewerState) (fetched : Except String Insight) : ViewerState :=
  match fetched with
  | Except.ok insight => renderInsight { st with currentInsight := some insight } insight
  | Except.error _ => showError st "Failed to load insight"

/-! ## Concrete example data

Inputs used by counterexamples, failing-input evaluations and
witnesses. -/

/-- A previously ingested node that the simulation has positioned at
(10, 20). -/
def exSimA : SimNode :=
  { id := "A", label := "Alpha", theme := "AI Infrastructure Moats",
    novelty_score := 7/10, color := none, pos := some (10, 20), connections := 0 }

/-- Engine state before a re-ingest: an 800 x 600 viewport with the
positioned node A in the working set. -/
def exPriorState : KGState :=
  { width := 800, height := 600, nodes := [exSimA], links := [],
    centerForce := (400, 300), currentTheme := none, hasSimulation := true }

def exSnapA : SnapNode :=
  { id := "A", label := "Alpha", theme := "AI Infrastructure Moats",
    novelty_score := 7/10, color := none }

def exSnapB : SnapNode :=
  { id := "B", label := "Beta", theme := "VC Pattern Recognition",
    novelty_score := 1/2, color := none }

/-- A snapshot whose node set is a strict superset of the node set of
exPriorState. -/
def exSupersetSnapshot : GraphSnapshot :=
  { nodes := [exSnapA, exSnapB], edges := [], orphans := ["A", "B"] }

/-- A snapshot with one self-loop edge on A. -/
def exLoopSnapshot : GraphSnapshot :=
  { nodes := [exSnapA],
    edges := [{ source := "A", target := "A", display := "self", type := "reference" }],
    orphans := [] }

/-- A snapshot with one ordinary edge from A to B. -/
def exABSnapshot : GraphSnapshot :=
  { nodes := [exSnapA, exSnapB],
    edges := [{ source := "A", target := "B", display := "relates to", type := "reference" }],
    orphans := [] }

/-- The clone of A produced by rendering exABSnapshot: unpositioned,
with one connection. -/
def exRenderedA : SimNode :=
  { id := "A", label := "Alpha", theme := "AI Infrastructure Moats",
    novelty_score := 7/10, color := none, pos := none, connections := 1 }

/-- A node with one connection. -/
def exConnectedNode : SimNode :=
  { id := "C", label := "Gamma", theme := "Enterprise AI Adoption",
    novelty_score := 3/5, color := none, pos := none, connections := 1 }

/-- An orphan node (zero connections). -/
def exOrphanNode : SimNode :=
  { id := "D", label := "Delta", theme := "Enterprise AI Adoption",
    novelty_score := 2/5, color := none, pos := none, connections := 0 }

/-- A node with three connections. -/
def exNode3 : SimNode :=
  { id := "E", label := "Three", theme := "Sources",
    novelty_score := 1/2, color := none, pos := none, connections := 3 }

/-- A node with seven connections. -/
def exNode7 : SimNode :=
  { id := "F", label := "Seven", theme := "Sources",
    novelty_score := 1/2, color := none, pos := none, connections := 7 }

/-- The C1 scenario: search for alp is issued, then search for alpha;
the response of the second (later) request arrives first, then the
response of the first (earlier) request arrives late. -/
def staleResponseTrace : List SbEvent :=
  [SbEvent.keystroke "alp", SbEvent.timerFire,
   SbEvent.keystroke "alpha", SbEvent.timerFire,
   SbEvent.respond 2 ["note-alpha"], SbEvent.respond 1 ["note-alp"]]

/-- A viewer state showing some earlier insight detail. -/
def exViewerState : ViewerState :=
  { currentInsight := none, emptyText := "Select an insight",
    emptyShown := false, detailShown := true, titleText := "Old title" }

/-- A sidebar UI state with an active search. -/
def exSidebarUi : SidebarUiState :=
  { selectedTheme := none, searchInputValue := "alpha", searchQuery := "alpha",
    clearBtnActive := true, resultsVisible := true }

/-! ## Helper lemmas -/

/-- Every node in the working set after render carries the
tallyConnections count of its own id. -/
theorem mem_render_connections (st : KGState) (g : GraphSnapshot)
    (n : SimNode) (hn : n ∈ (render st g).nodes) :
    n.connections = tallyConnections (render st g).links n.id := by
  simp only [render, List.map_map, List.mem_map] at hn
  obtain ⟨m, _, rfl⟩ := hn
  rfl

/-- On a link list without self-loops, the endpoint tally at k is the
number of links incident to k. -/
theorem tally_eq_spec_of_no_selfloop (links : List LinkRec) (k : String)
    (h : ∀ l ∈ links, l.source ≠ l.target) :
    tallyConnections links k = specIncidentEdgeCount links k := by
  induction links with
  | nil => rfl
  | cons l ls ih =>
      have hl : l.source ≠ l.target := h l (List.mem_cons_self l ls)
      have ih2 := ih (fun x hx => h x (List.mem_cons_of_mem l hx))
      by_cases hs : l.source = k
      · have ht : l.target ≠ k := fun ht => hl (hs.trans ht.symm)
        simp [tallyConnections, specIncidentEdgeCount, List.filter_cons, hs, ht, ih2,
          specIncidentEdgeCount] at *
        omega
      · by_cases ht : l.target = k
        · simp [tallyConnections, specIncidentEdgeCount, List.filter_cons, hs, ht, ih2] at *
          omega
        · simp [tallyConnections, specIncidentEdgeCount, List.filter_cons, hs, ht, ih2] at *

/-! ## Claim theorems -/

/-- Claim C1 (code bug, failing input): the performSearch response
handler in sidebar.js applies every response on arrival with no
generation check, so on the trace where the search for alp and then for
alpha are issued, the alpha response arrives first and the alp response
arrives late, the final applied result set is the stale one for alp -
the opposite of the discard the claim requires.  The emitted call list
shows both fetches in issue order and the stale onSearch applied last. -/
theorem c1_stale_response_overwrites :
    (runSidebar initSidebarSearch staleResponseTrace).1.searchResults = ["note-alp"]
    ∧ (runSidebar initSidebarSearch staleResponseTrace).2
        = [SbCall.fetchSearch "alp" none false,
           SbCall.fetchSearch "alpha" none false,
           SbCall.onSearchIds ["note-alpha"],
           SbCall.onSearchIds ["note-alp"]]
    ∧ (["note-alp"] : List String) ≠ ["note-alpha"] := by
  refine ⟨rfl, rfl, by decide⟩

/-- Claim C2 (code bug, failing input): render clones every snapshot
node afresh, so after re-ingesting a superset snapshot the node A that
previously sat at position (10, 20) is unpositioned - its simulation
position is not carried over, contrary to the identity-preserving join
the claim states. -/
theorem c2_render_discards_positions :
    exPriorState.nodes.map (fun n => (n.id, n.pos)) = [("A", some ((10 : Rat), (20 : Rat)))]
    ∧ (render exPriorState exSupersetSnapshot).nodes.map (fun n => (n.id, n.pos))
        = [("A", (none : Option (Rat × Rat))), ("B", none)]
    ∧ (some ((10 : Rat), (20 : Rat)) : Option (Rat × Rat)) ≠ none := by
  refine ⟨rfl, rfl, by decide⟩

/-- Claim C3 (code bug, failing input): highlightSearchResults([]) sets
every node circle to the uniform reset styling (stroke-width 2, white
stroke, base radius, opacity 0.7), which is not the renderNodes
baseline: a connected node has baseline opacity 1, an orphan has
baseline stroke #cbd5e1 and opacity 0.6, and a brightness filter left
over from a previous highlight is not removed at all. -/
theorem c3_highlight_empty_is_not_baseline :
    (highlightSearchResults [] exConnectedNode (renderNodeStyle exConnectedNode)).opacity = 7/10
    ∧ (renderNodeStyle exConnectedNode).opacity = 1
    ∧ highlightSearchResults [] exConnectedNode (renderNodeStyle exConnectedNode)
        ≠ renderNodeStyle exConnectedNode
    ∧ (highlightSearchResults [] exOrphanNode (renderNodeStyle exOrphanNode)).stroke = "#ffffff"
    ∧ (renderNodeStyle exOrphanNode).stroke = "#cbd5e1"
    ∧ (highlightSearchResults [] exOrphanNode (renderNodeStyle exOrphanNode)).opacity = 7/10
    ∧ (renderNodeStyle exOrphanNode).opacity = 6/10
    ∧ (highlightSearchResults [] exConnectedNode
        (searchHighlightStyle exConnectedNode (renderNodeStyle exConnectedNode))).filterAttr
        = some "brightness(1.2)" := by
  refine ⟨rfl, rfl, ?_, rfl, rfl, rfl, rfl, rfl⟩
  intro h
  have h2 : (7/10 : Rat) = 1 := by
    calc (7/10 : Rat)
        = (highlightSearchResults [] exConnectedNode (renderNodeStyle exConnectedNode)).opacity := rfl
      _ = (renderNodeStyle exConnectedNode).opacity := by rw [h]
      _ = 1 := rfl
  norm_num at h2

/-- Claim C4 counterexample: on a snapshot with the single self-loop
edge (A, A), render gives node A a connections value of 2 (the loop
increments the entry of A once as source and once as target), while the
number of edges having A as source or target is 1 - so connectionCount
does not equal the edge count the claim states. -/
theorem c4_selfloop_counterexample :
    ((render exPriorState exLoopSnapshot).nodes.map (fun n => (n.id, n.connections)))
        = [("A", 2)]
    ∧ specIncidentEdgeCount (render exPriorState exLoopSnapshot).links "A" = 1
    ∧ (2 : Nat) ≠ 1 := by
  refine ⟨rfl, rfl, by decide⟩

/-- Claim C4 (amended): after every ingest, each node in the working set
carries as connections the number of endpoint occurrences of its id, so
whenever no edge of the snapshot is a self-loop this equals the number
of edges with the id as source or target; and a node receives the
distinct orphan styling in renderNodes exactly when its connections
value is 0. -/
theorem c4_connections_and_orphans (st : KGState) (g : GraphSnapshot)
    (n : SimNode) (hn : n ∈ (render st g).nodes)
    (hloop : ∀ l ∈ (render st g).links, l.source ≠ l.target) :
    n.connections = specIncidentEdgeCount (render st g).links n.id
    ∧ ((renderNodeStyle n).stroke = "#cbd5e1" ↔ n.connections = 0)
    ∧ ((renderNodeStyle n).dasharray = "4,4" ↔ n.connections = 0)
    ∧ ((renderNodeStyle n).opacity = 6/10 ↔ n.connections = 0) := by
  refine ⟨?_, ?_, ?_, ?_⟩
  · rw [mem_render_connections st g n hn]
    exact tally_eq_spec_of_no_selfloop _ _ hloop
  · by_cases hc : n.connections = 0 <;> simp [renderNodeStyle, hc]
  · by_cases hc : n.connections = 0 <;> simp [renderNodeStyle, hc]
  · by_cases hc : n.connections = 0 <;> norm_num [renderNodeStyle, hc]

/-- Witness for C4: the amended statement applied to the concrete A - B
snapshot, where the rendered node A has one connection and is not
orphan-styled. -/
theorem c4_connections_and_orphans_witness :
    exRenderedA.connections = specIncidentEdgeCount (render exPriorState exABSnapshot).links exRenderedA.id
    ∧ ((renderNodeStyle exRenderedA).stroke = "#cbd5e1" ↔ exRenderedA.connections = 0)
    ∧ ((renderNodeStyle exRenderedA).dasharray = "4,4" ↔ exRenderedA.connections = 0)
    ∧ ((renderNodeStyle exRenderedA).opacity = 6/10 ↔ exRenderedA.connections = 0) :=
  c4_connections_and_orphans exPriorState exABSnapshot exRenderedA
    (List.mem_cons_self _ _) (by decide)

/-- Claim C5 (confirmed): getNodeRadius is monotonic non-decreasing in
the connections count, is keyed on the connections count only (equal
counts give equal radii, independent of novelty or anything else), and
always lies in the closed interval [baseRadius, maxRadius] = [6, 25].
The legacy novelty-keyed sizing is the separate getNodeRadiusLegacy of
the first class copy and does not enter this function. -/
theorem c5_radius_monotone_bounded (n m : SimNode)
    (h : n.connections ≤ m.connections) :
    getNodeRadius n ≤ getNodeRadius m
    ∧ (n.connections = m.connections → getNodeRadius n = getNodeRadius m)
    ∧ baseRadius ≤ getNodeRadius n ∧ getNodeRadius n ≤ maxRadius := by
  have hcast : ((n.connections : Rat)) ≤ (m.connections : Rat) := by exact_mod_cast h
  have hmin : min ((n.connections : Rat)) 15 ≤ min ((m.connections : Rat)) 15 :=
    min_le_min hcast le_rfl
  have hnn : (0 : Rat) ≤ min ((n.connections : Rat)) 15 :=
    le_min (Nat.cast_nonneg _) (by norm_num)
  have hub : min ((n.connections : Rat)) 15 ≤ 15 := min_le_right _ _
  refine ⟨?_, ?_, ?_, ?_⟩
  · unfold getNodeRadius baseRadius maxRadius
    nlinarith
  · intro he
    unfold getNodeRadius
    rw [he]
  · unfold getNodeRadius baseRadius maxRadius
    nlinarith
  · unfold getNodeRadius baseRadius maxRadius
    nlinarith

/-- Witness for C5 at connections counts 3 and 7. -/
theorem c5_radius_monotone_bounded_witness :
    getNodeRadius exNode3 ≤ getNodeRadius exNode7
    ∧ (exNode3.connections = exNode7.connections → getNodeRadius exNode3 = getNodeRadius exNode7)
    ∧ baseRadius ≤ getNodeRadius exNode3 ∧ getNodeRadius exNode3 ≤ maxRadius :=
  c5_radius_monotone_bounded exNode3 exNode7 (by decide)

/-- Claim C6 counterexample: with the active theme set to the empty
string, a node whose theme is "AI Infrastructure Moats" differs from the
active theme, yet updateHighlight does not dim it - the empty string is
falsy in JS, so the filter behaves as if cleared and the stated
equivalence fails. -/
theorem c6_empty_theme_counterexample :
    ¬ ((nodeDimmed (filterByTheme exPriorState "").currentTheme "AI Infrastructure Moats" = true)
        ↔ "AI Infrastructure Moats" ≠ "") := by
  decide

/-- Claim C6 (amended): for every nonempty theme t, setThemeFilter(t)
dims a node or label exactly when its theme differs from t, and dims an
edge exactly when both endpoint themes differ from t; filtering by the
empty string dims nothing (JS falsiness); and clearFilter after a filter
restores the currentTheme of a never-filtered engine, under which no
node, label or edge is dimmed. -/
theorem c6_theme_filter_dims_iff (st : KGState) (t : String) (ht : t ≠ "")
    (nodeTheme sourceTheme targetTheme : String) :
    (nodeDimmed (filterByTheme st t).currentTheme nodeTheme = true ↔ nodeTheme ≠ t)
    ∧ (edgeDimmed (filterByTheme st t).currentTheme sourceTheme targetTheme = true
        ↔ (sourceTheme ≠ t ∧ targetTheme ≠ t))
    ∧ nodeDimmed (filterByTheme st "").currentTheme nodeTheme = false
    ∧ (clearFilter (filterByTheme st t)).currentTheme = initialCurrentTheme
    ∧ nodeDimmed (clearFilter (filterByTheme st t)).currentTheme nodeTheme = false
    ∧ edgeDimmed (clearFilter (filterByTheme st t)).currentTheme sourceTheme targetTheme = false := by
  simp [nodeDimmed, edgeDimmed, filterByTheme, clearFilter, initialCurrentTheme, ht]

/-- Witness for C6 with the theme "VC Pattern Recognition" active, a
matching node theme and one matching edge endpoint. -/
theorem c6_theme_filter_dims_iff_witness :
    (nodeDimmed (filterByTheme exPriorState "VC Pattern Recognition").currentTheme
        "AI Infrastructure Moats" = true ↔ "AI Infrastructure Moats" ≠ "VC Pattern Recognition")
    ∧ (edgeDimmed (filterByTheme exPriorState "VC Pattern Recognition").currentTheme
        "AI Infrastructure Moats" "Sources" = true
        ↔ ("AI Infrastructure Moats" ≠ "VC Pattern Recognition"
            ∧ "Sources" ≠ "VC Pattern Recognition"))
    ∧ nodeDimmed (filterByTheme exPriorState "").currentTheme "AI Infrastructure Moats" = false
    ∧ (clearFilter (filterByTheme exPriorState "VC Pattern Recognition")).currentTheme
        = initialCurrentTheme
    ∧ nodeDimmed (clearFilter (filterByTheme exPriorState "VC Pattern Recognition")).currentTheme
        "AI Infrastructure Moats" = false
    ∧ edgeDimmed (clearFilter (filterByTheme exPriorState "VC Pattern Recognition")).currentTheme
        "AI Infrastructure Moats" "Sources" = false :=
  c6_theme_filter_dims_iff exPriorState "VC Pattern Recognition" (by decide)
    "AI Infrastructure Moats" "AI Infrastructure Moats" "Sources"

/-- Claim C7 (confirmed): a burst of keystrokes inside the debounce
window - each one cancelling the pending timeout and, being nonempty,
rearming it - followed by the single surviving timeout firing, emits
exactly one call in total, and it is the network search call carrying
the latest query text (with the theme and mode read at fire time). -/
theorem c7_debounce_single_fetch (st : SbSearchState) (qs : List String) (q : String)
    (hq : q ≠ "") (hqs : ∀ x ∈ qs, x ≠ "") :
    runSidebar st ((qs ++ [q]).map SbEvent.keystroke ++ [SbEvent.timerFire])
      = ({ st with searchQuery := q, pendingTimer := false },
         [SbCall.fetchSearch q st.selectedTheme st.semanticChecked]) := by
  induction qs generalizing st with
  | nil =>
      simp [runSidebar, stepSidebar, performSearch, hq]
  | cons x xs ih =>
      have hx : x ≠ "" := hqs x (List.mem_cons_self x xs)
      have ih2 := ih { st with searchQuery := x, pendingTimer := true }
        (fun y hy => hqs y (List.mem_cons_of_mem x hy))
      simp [runSidebar, stepSidebar, hx] at ih2 ⊢
      rw [ih2]

/-- Witness for C7: typing alp then alpha inside the window fires
exactly one search, for alpha. -/
theorem c7_debounce_single_fetch_witness :
    runSidebar initSidebarSearch
        (((["alp"] ++ ["alpha"]).map SbEvent.keystroke) ++ [SbEvent.timerFire])
      = ({ initSidebarSearch with searchQuery := "alpha", pendingTimer := false },
         [SbCall.fetchSearch "alpha" none false]) :=
  c7_debounce_single_fetch initSidebarSearch ["alp"] "alpha" (by decide) (by decide)

/-- Claim C8 (confirmed): a resize event reporting the currently stored
width and height leaves the engine state untouched and does not restart
the simulation; only when a dimension actually changed does
onWindowResize store the new dimensions, recenter the centering force at
the new viewport center and restart the simulation. -/
theorem c8_resize_only_on_change (st : KGState) (w h : Int) :
    (w = st.width ∧ h = st.height → onWindowResize st w h = (st, false))
    ∧ ((w ≠ st.width ∨ h ≠ st.height) → st.hasSimulation = true →
        (onWindowResize st w h).2 = true
        ∧ (onWindowResize st w h).1.centerForce = ((w : Rat) / 2, (h : Rat) / 2)
        ∧ (onWindowResize st w h).1.width = w
        ∧ (onWindowResize st w h).1.height = h) := by
  constructor
  · rintro ⟨rfl, rfl⟩
    simp [onWindowResize]
  · intro hne hsim
    simp [onWindowResize, hsim, hne]

/-- Witness for C8: on the 800 x 600 state, a spurious 800 x 600 resize
is a no-op, while widening to 1024 restarts the simulation. -/
theorem c8_resize_only_on_change_witness :
    onWindowResize exPriorState 800 600 = (exPriorState, false)
    ∧ (onWindowResize exPriorState 1024 600).2 = true :=
  ⟨(c8_resize_only_on_change exPriorState 800 600).1 ⟨rfl, rfl⟩,
   ((c8_resize_only_on_change exPriorState 1024 600).2 (Or.inl (by decide)) rfl).1⟩

/-- Claim C9 (confirmed): for every insight id whose detail fetch fails,
loadInsight resolves to showError, which writes the inline error message
into the placeholder element, shows it and hides the detail pane; the
cached insight is untouched.  loadInsight is a total function into
ViewerState - the catch branch is the only consumer of the failure, so
nothing is thrown past the component boundary, and no graph or sidebar
state appears in its type at all. -/
theorem c9_load_failure_inline_error (st : ViewerState) (e : String) :
    loadInsight st (Except.error e) = showError st "Failed to load insight"
    ∧ (loadInsight st (Except.error e)).emptyText = "Failed to load insight"
    ∧ (loadInsight st (Except.error e)).emptyShown = true
    ∧ (loadInsight st (Except.error e)).detailShown = false
    ∧ (loadInsight st (Except.error e)).currentInsight = st.currentInsight := by
  refine ⟨rfl, rfl, rfl, rfl, rfl⟩

/-- Claim C10 (confirmed): selectTheme empties the stored search query
and the input box and hides the results panel strictly before invoking
the theme callback - the single callback it emits is onThemeClick,
carrying the already-reset state - and it never invokes onSearch, for a
named theme as well as for null (All Themes). -/
theorem c10_selectTheme_resets_without_onSearch (st : SidebarUiState) (t : Option String) :
    (selectTheme st t).2 = [SidebarCallback.themeClick t (selectTheme st t).1]
    ∧ (selectTheme st t).1.searchQuery = ""
    ∧ (selectTheme st t).1.searchInputValue = ""
    ∧ (selectTheme st t).1.resultsVisible = false
    ∧ (selectTheme st t).1.selectedTheme = t
    ∧ ∀ ids s, SidebarCallback.searchChanged ids s ∉ (selectTheme st t).2 := by
  refine ⟨rfl, rfl, rfl, rfl, rfl, ?_⟩
  intro ids s hmem
  simp [selectTheme, hideSearchResultsUi] at hmem
